import Mathlib

/-!
Verification of the bw-cli-docker sidecar (src/main.go) against its
natural-language specification.

The Go program is shallowly embedded:
* JSON values decoded by `encoding/json` into `map[string]interface{}`
  become the inductive `Json`, with objects as association lists.
* The process environment becomes an association list `Env`; `os.LookupEnv`
  and `os.Getenv` become `osLookupEnv` and `osGetenv`.
* External command invocation (`exec.Command(...).CombinedOutput / Run`)
  becomes a function `List String → ExecResult` passed in as a parameter
  (the Go code has the same seam: the package variable `execCommand`).
  Embedded functions additionally return the list of commands they spawned.
* The HTTP layer of the readiness poller becomes a stream of `Attempt`
  outcomes, one per iteration of the retry loop.
-/

/-- A JSON value as decoded by Go's `encoding/json` into `interface{}`:
`nil`, `bool`, `float64`, `string`, `[]interface{}` or
`map[string]interface{}`.  Objects are association lists of fields. -/
inductive Json where
  | null : Json
  | bool : Bool → Json
  | num : Int → Json
  | str : String → Json
  | arr : List Json → Json
  | obj : List (String × Json) → Json

/-- Go map indexing `m[key]` on a decoded JSON object: the value mapped to
`key`, if present.  (Go maps have unique keys; on an association list with a
duplicate key this returns the first binding.) -/
def jLookup : List (String × Json) → String → Option Json
  | [], _ => none
  | (k, x) :: rest, key => if k = key then some x else jLookup rest key

/-- The Go pattern `status, ok := m["status"].(string); ok && status == "unlocked"`:
true exactly when the field `status` of `m` is the string "unlocked".
A missing field or a non-string value makes the type assertion fail, giving
false rather than a panic. -/
def statusFieldUnlocked (m : List (String × Json)) : Bool :=
  match jLookup m "status" with
  | some (Json.str status) => status = "unlocked"
  | _ => false

/-- The Go pattern `inner, ok := m[key].(map[string]interface{})`: the field
`key` of `m` when it exists and is itself an object. -/
def objField (m : List (String × Json)) (key : String) : Option (List (String × Json)) :=
  match jLookup m key with
  | some (Json.obj inner) => some inner
  | _ => none

/-- src/main.go `isUnlocked` (lines 157-172): true when
`data.template.status`, `data.status` or the top-level `status` is the
string "unlocked"; every failed type assertion falls through to the next
check and ultimately to `false`. -/
def isUnlocked (v : List (String × Json)) : Bool :=
  (match objField v "data" with
   | some data =>
     (match objField data "template" with
      | some template => statusFieldUnlocked template
      | none => false)
     || statusFieldUnlocked data
   | none => false)
  || statusFieldUnlocked v

/-- The spec's unlock condition, stated in its own words: the string
"unlocked" appears at one of the three documented placements
(`data.template.status`, `data.status`, or top-level `status`). -/
def unlockedSpec (v : List (String × Json)) : Prop :=
  (∃ data template, jLookup v "data" = some (Json.obj data) ∧
      jLookup data "template" = some (Json.obj template) ∧
      jLookup template "status" = some (Json.str "unlocked")) ∨
  (∃ data, jLookup v "data" = some (Json.obj data) ∧
      jLookup data "status" = some (Json.str "unlocked")) ∨
  jLookup v "status" = some (Json.str "unlocked")

/-- The process environment: a finite map from variable names to values.
A variable can be present with the empty string as value (set-but-empty),
which `os.LookupEnv` distinguishes from absence. -/
def Env : Type := List (String × String)

/-- Go `os.LookupEnv`: the value and whether the variable is present. -/
def osLookupEnv (env : Env) (key : String) : Option String :=
  match env with
  | [] => none
  | (k, x) :: rest => if k = key then some x else osLookupEnv rest key

/-- Go `os.Getenv`: the value, or the empty string when unset. -/
def osGetenv (env : Env) (key : String) : String :=
  (osLookupEnv env key).getD ""

/-- src/main.go `getEnv` (lines 22-27): the value of the variable when it is
present and not empty, the fallback otherwise. -/
def getEnv (env : Env) (key fallback : String) : String :=
  match osLookupEnv env key with
  | some value => if value ≠ "" then value else fallback
  | none => fallback

/-- src/main.go line 50: internal serve port, default "8088". -/
def bwServePort (env : Env) : String := getEnv env "BW_SERVE_PORT" "8088"

/-- src/main.go line 62: public proxy port, default "8087". -/
def bwProxyPort (env : Env) : String := getEnv env "BW_PROXY_PORT" "8087"

/-- src/main.go line 67: self-target host for periodic sync, default "localhost". -/
def bwProxyHost (env : Env) : String := getEnv env "BW_PROXY_HOST" "localhost"

/-- src/main.go line 66: sync-disable flag, default "false". -/
def bwDisableSync (env : Env) : String := getEnv env "BW_DISABLE_SYNC" "false"

/-- src/main.go line 230: sync interval duration string, default "2m". -/
def bwSyncIntervalStr (env : Env) : String := getEnv env "BW_SYNC_INTERVAL" "2m"

/-- src/main.go lines 29-33: the retry count of the readiness poller, a
package-level variable initialized to 30.  `waitForBwServe` reads this
variable; no environment variable is consulted for it. -/
def bwServeWaitRetries : Nat := 30

/-- src/main.go lines 29-33: the sleep between poll attempts, a
package-level variable initialized to `1 * time.Second`, i.e. 10^9
nanoseconds (Go `time.Duration` counts nanoseconds).  No environment
variable is consulted for it. -/
def bwServeWaitInterval : Nat := 1000000000

/-- The outcome of one iteration of the poll loop in `waitForBwServe`
(src/main.go lines 139-150), as observed from the HTTP client:
* `netErr`: `client.Get` returned an error;
* `ioErr c`: the response had status `c` but reading its body failed;
* `badJson c`: status `c`, body read, but `json.Unmarshal` into
  `map[string]interface{}` failed (invalid JSON, or not a JSON object);
* `ok c v`: status `c` and the body decoded to the JSON object `v`. -/
inductive Attempt where
  | netErr : Attempt
  | ioErr : Nat → Attempt
  | badJson : Nat → Attempt
  | ok : Nat → List (String × Json) → Attempt

/-- Whether one poll attempt makes `waitForBwServe` return success: the
response must have status 200 (`http.StatusOK`), the body must read and
decode, and `isUnlocked` must hold of the decoded object.  Every other
outcome proceeds to the next attempt. -/
def attemptReady : Attempt → Bool
  | Attempt.ok code v => code == 200 && isUnlocked v
  | _ => false

/-- An attempt outcome of one of the error classes of the poll loop:
a network error (`client.Get` error or a body-read error), a non-200
response, or an invalid JSON body.  A 200 response with a well-formed
object body that merely is not unlocked is not an error attempt. -/
def isErrorAttempt : Attempt → Bool
  | Attempt.ok code _ => code != 200
  | _ => true

/-- src/main.go line 154: the message of the timeout error returned when
every attempt is exhausted. -/
def timeoutMsg : String := "timeout waiting for bw serve to become unlocked"

/-- The observable outcome of a `waitForBwServe` run: the returned value
(`.ok ()` for `nil`, `.error` for the timeout error), how many HTTP
attempts were made, and how many times `time.Sleep` ran. -/
structure WaitOutcome where
  result : Except String Unit
  attemptsMade : Nat
  sleeps : Nat

/-- The retry loop of src/main.go `waitForBwServe` (lines 138-154):
`attempts i` is what the i-th HTTP attempt observes, `fuel` the remaining
iterations.  A ready attempt returns `nil` immediately; otherwise the loop
sleeps and retries, and returns the timeout error when the budget is
exhausted. -/
def waitLoop (attempts : Nat → Attempt) (i : Nat) : Nat → WaitOutcome
  | 0 => { result := Except.error timeoutMsg, attemptsMade := 0, sleeps := 0 }
  | fuel + 1 =>
    if attemptReady (attempts i) then
      { result := Except.ok (), attemptsMade := 1, sleeps := 0 }
    else
      let rest := waitLoop attempts (i + 1) fuel
      { result := rest.result, attemptsMade := rest.attemptsMade + 1,
        sleeps := rest.sleeps + 1 }

/-- src/main.go `waitForBwServe` (lines 132-155), parameterized by the
retry budget (the package variable `bwServeWaitRetries`) and by the stream
of attempt outcomes. -/
def waitForBwServe (retries : Nat) (attempts : Nat → Attempt) : WaitOutcome :=
  waitLoop attempts 0 retries

/-- The observable result of one external command invocation:
the captured combined output, and `none` for a zero exit status or
`some e` (the error's text) for a non-zero one. -/
structure ExecResult where
  output : String
  err : Option String

/-- src/main.go line 92: `bw config server <host>`. -/
def bwConfigCmd (host : String) : List String := ["bw", "config", "server", host]

/-- src/main.go line 100: `bw login --apikey`. -/
def bwLoginCmd : List String := ["bw", "login", "--apikey"]

/-- src/main.go line 110: `bw unlock --passwordenv BW_PASSWORD --raw`. -/
def bwUnlockCmd : List String := ["bw", "unlock", "--passwordenv", "BW_PASSWORD", "--raw"]

/-- src/main.go line 209: `bw sync`. -/
def bwSyncCmd : List String := ["bw", "sync"]

/-- src/main.go line 86: the ConfigurationError message for a missing secret. -/
def configErrorMsg : String :=
  "missing one or more required environment variables (BW_CLIENTID, BW_CLIENTSECRET, BW_PASSWORD)"

/-- Go `strings.TrimSpace` on captured command output: drop leading and
trailing whitespace characters (whitespace modelled as the ASCII space,
tab, carriage-return and newline characters that command output contains
in practice). -/
def trimSpace (s : String) : String :=
  String.mk (((s.data.dropWhile Char.isWhitespace).reverse.dropWhile Char.isWhitespace).reverse)

/-- What a run of `loginAndGetSession` returns and which external
processes it spawned, in order. -/
structure LoginOutcome where
  result : Except String String
  commandsRun : List (List String)

/-- src/main.go lines 99-116: the login and unlock steps of
`loginAndGetSession`, after the optional host-configuration step has
succeeded and spawned the commands `configRuns`.  On a failed step the
error carries the step's combined output and error text; on success the
returned Credential is the whitespace-trimmed unlock output. -/
def loginSteps (run : List String → ExecResult) (configRuns : List (List String)) :
    LoginOutcome :=
  let rLogin := run bwLoginCmd
  match rLogin.err with
  | some e =>
    { result := Except.error ("bw login failed: " ++ rLogin.output ++ " - " ++ e),
      commandsRun := configRuns ++ [bwLoginCmd] }
  | none =>
    let rUnlock := run bwUnlockCmd
    match rUnlock.err with
    | some e =>
      { result := Except.error ("bw unlock failed: " ++ rUnlock.output ++ " - " ++ e),
        commandsRun := configRuns ++ [bwLoginCmd, bwUnlockCmd] }
    | none =>
      { result := Except.ok (trimSpace rUnlock.output),
        commandsRun := configRuns ++ [bwLoginCmd, bwUnlockCmd] }

/-- src/main.go `loginAndGetSession` (lines 78-117): reads the four
variables with `os.Getenv`, fails with the ConfigurationError when client
id, client secret or password is empty (hence also when unset), runs
`bw config server` only when a host is supplied, then logs in and unlocks. -/
def loginAndGetSession (env : Env) (run : List String → ExecResult) : LoginOutcome :=
  let host := osGetenv env "BW_HOST"
  let clientID := osGetenv env "BW_CLIENTID"
  let clientSecret := osGetenv env "BW_CLIENTSECRET"
  let password := osGetenv env "BW_PASSWORD"
  if clientID = "" ∨ clientSecret = "" ∨ password = "" then
    { result := Except.error configErrorMsg, commandsRun := [] }
  else if host = "" then
    loginSteps run []
  else
    let rConfig := run (bwConfigCmd host)
    match rConfig.err with
    | some e =>
      { result := Except.error ("bw config server failed: " ++ rConfig.output ++ " - " ++ e),
        commandsRun := [bwConfigCmd host] }
    | none => loginSteps run [bwConfigCmd host]

/-- An HTTP response the sidecar's own handlers produce: status code and
body text. -/
structure HttpResponse where
  status : Nat
  body : String
  deriving DecidableEq

/-- The `/sync` handler of src/main.go `setupRouter` (lines 203-221),
given the request method and the command runner; also returns the
commands it spawned.  A non-POST method gets 405 via `http.Error` (which
appends a newline to the message) without running anything.  Otherwise
`bw sync` runs with stdout and stderr captured into one buffer; a
non-zero exit gets 500 with body `Sync failed: <combined output>` plus
the `http.Error` newline, a zero exit gets 200 with body exactly
`Sync successful`. -/
def syncHandler (run : List String → ExecResult) (method : String) :
    HttpResponse × List (List String) :=
  if method ≠ "POST" then
    ({ status := 405, body := "Method not allowed" ++ "\n" }, [])
  else
    let r := run bwSyncCmd
    match r.err with
    | some _ =>
      ({ status := 500, body := "Sync failed: " ++ r.output ++ "\n" }, [bwSyncCmd])
    | none =>
      ({ status := 200, body := "Sync successful" }, [bwSyncCmd])

/-- Two minutes in nanoseconds: Go `2 * time.Minute`. -/
def twoMinutesNs : Int := 120000000000

/-- The interval determination of src/main.go `startPeriodicSync`
(lines 229-236), parameterized by Go's `time.ParseDuration`
(`some` nanoseconds on a valid duration string, `none` on a parse error):
the configured string (default "2m") is parsed; a parse error falls back
to `2 * time.Minute` and sets the warning flag (second component), and
never fails — the function is total, the process does not terminate. -/
def startPeriodicSyncInterval (env : Env) (parseDuration : String → Option Int) :
    Int × Bool :=
  let syncIntervalStr := getEnv env "BW_SYNC_INTERVAL" "2m"
  match parseDuration syncIntervalStr with
  | some d => (d, false)
  | none => (twoMinutesNs, true)

/-! ## Helper lemmas -/

theorem statusFieldUnlocked_iff (m : List (String × Json)) :
    statusFieldUnlocked m = true ↔ jLookup m "status" = some (Json.str "unlocked") := by
  unfold statusFieldUnlocked
  cases h : jLookup m "status" with
  | none => simp
  | some j => cases j <;> simp

theorem objField_eq_some (m : List (String × Json)) (key : String)
    (inner : List (String × Json)) :
    objField m key = some inner ↔ jLookup m key = some (Json.obj inner) := by
  unfold objField
  cases h : jLookup m key with
  | none => simp
  | some j => cases j <;> simp

theorem objField_none (m : List (String × Json)) (key : String)
    (inner : List (String × Json)) (h : objField m key = none) :
    jLookup m key ≠ some (Json.obj inner) := by
  intro hc
  have := (objField_eq_some m key inner).2 hc
  rw [h] at this
  exact Option.noConfusion this

/-! ## C1: the unlock predicate -/

/-- C1: for every JSON object payload, `isUnlocked` returns true iff the
string "unlocked" appears at one of the three documented placements
(`data.template.status`, `data.status`, or top-level `status`); every
other shape — missing keys, non-string status values, non-object
intermediate nodes, including the four concrete shapes the spec lists —
gives false (the function is total, so it never raises). -/
theorem isUnlocked_iff_three_placements :
    (∀ v, isUnlocked v = true ↔ unlockedSpec v) ∧
    isUnlocked [] = false ∧
    isUnlocked [("data", Json.num 123)] = false ∧
    isUnlocked [("data", Json.obj [("template", Json.arr [])])] = false ∧
    isUnlocked [("status", Json.obj [])] = false := by
  refine ⟨fun v => ?_, by decide, by decide, by decide, by decide⟩
  unfold isUnlocked unlockedSpec
  cases hd : objField v "data" with
  | none =>
    rw [Bool.false_or, statusFieldUnlocked_iff]
    constructor
    · exact fun h => Or.inr (Or.inr h)
    · rintro (⟨data, template, hdata, -, -⟩ | ⟨data, hdata, -⟩ | h)
      · exact absurd hdata (objField_none v "data" data hd)
      · exact absurd hdata (objField_none v "data" data hd)
      · exact h
  | some data =>
    dsimp only
    have hdata : jLookup v "data" = some (Json.obj data) :=
      (objField_eq_some v "data" data).1 hd
    cases ht : objField data "template" with
    | none =>
      dsimp only
      rw [Bool.false_or, Bool.or_eq_true, statusFieldUnlocked_iff, statusFieldUnlocked_iff]
      constructor
      · rintro (h1 | h2)
        · exact Or.inr (Or.inl ⟨data, hdata, h1⟩)
        · exact Or.inr (Or.inr h2)
      · rintro (⟨data2, template, hdata2, htempl, -⟩ | ⟨data2, hdata2, hstat⟩ | h)
        · rw [hdata] at hdata2
          injection hdata2 with h2
          injection h2 with h3
          subst h3
          exact absurd htempl (objField_none data "template" template ht)
        · rw [hdata] at hdata2
          injection hdata2 with h2
          injection h2 with h3
          subst h3
          exact Or.inl hstat
        · exact Or.inr h
    | some template =>
      dsimp only
      have htempl : jLookup data "template" = some (Json.obj template) :=
        (objField_eq_some data "template" template).1 ht
      rw [Bool.or_eq_true, Bool.or_eq_true, statusFieldUnlocked_iff,
        statusFieldUnlocked_iff, statusFieldUnlocked_iff]
      constructor
      · rintro ((h1 | h2) | h3)
        · exact Or.inl ⟨data, template, hdata, htempl, h1⟩
        · exact Or.inr (Or.inl ⟨data, hdata, h2⟩)
        · exact Or.inr (Or.inr h3)
      · rintro (⟨data2, template2, hdata2, htempl2, hstat⟩ | ⟨data2, hdata2, hstat⟩ | h)
        · rw [hdata] at hdata2
          injection hdata2 with h2
          injection h2 with h3
          subst h3
          rw [htempl] at htempl2
          injection htempl2 with h4
          injection h4 with h5
          subst h5
          exact Or.inl (Or.inl hstat)
        · rw [hdata] at hdata2
          injection hdata2 with h2
          injection h2 with h3
          subst h3
          exact Or.inl (Or.inr hstat)
        · exact Or.inr h

/-! ## C2-C4: the readiness poller -/

theorem waitLoop_all_fail (attempts : Nat → Attempt) :
    ∀ (fuel i : Nat), (∀ j, j < fuel → attemptReady (attempts (i + j)) = false) →
      waitLoop attempts i fuel =
        { result := Except.error timeoutMsg, attemptsMade := fuel, sleeps := fuel } := by
  intro fuel
  induction fuel with
  | zero => intro i _; rfl
  | succ f ih =>
    intro i h
    have h0 : attemptReady (attempts i) = false := by
      have := h 0 (Nat.succ_pos f)
      simpa using this
    have hrest := ih (i + 1) (fun j hj => by
      have e : i + 1 + j = i + (j + 1) := by omega
      rw [e]
      exact h (j + 1) (by omega))
    simp [waitLoop, h0, hrest]

theorem waitLoop_first_success (attempts : Nat → Attempt) :
    ∀ (k fuel i : Nat), k < fuel →
      attemptReady (attempts (i + k)) = true →
      (∀ j, j < k → attemptReady (attempts (i + j)) = false) →
      waitLoop attempts i fuel =
        { result := Except.ok (), attemptsMade := k + 1, sleeps := k } := by
  intro k
  induction k with
  | zero =>
    intro fuel i hk hready _
    cases fuel with
    | zero => omega
    | succ f =>
      have h0 : attemptReady (attempts i) = true := by simpa using hready
      simp [waitLoop, h0]
  | succ k ih =>
    intro fuel i hk hready hprev
    cases fuel with
    | zero => omega
    | succ f =>
      have h0 : attemptReady (attempts i) = false := by
        simpa using hprev 0 (Nat.succ_pos k)
      have hrest := ih f (i + 1) (by omega)
        (by
          have e : i + 1 + k = i + (k + 1) := by omega
          rw [e]
          exact hready)
        (fun j hj => by
          have e : i + 1 + j = i + (j + 1) := by omega
          rw [e]
          exact hprev (j + 1) (by omega))
      simp [waitLoop, h0, hrest]

theorem errorAttempt_not_ready (a : Attempt) (h : isErrorAttempt a = true) :
    attemptReady a = false := by
  cases a with
  | netErr => rfl
  | ioErr c => rfl
  | badJson c => rfl
  | ok code v =>
    have hne : code ≠ 200 := by simpa [isErrorAttempt] using h
    simp [attemptReady, hne]

/-- C2: the readiness poller's retry policy defaults to 30 attempts with a
1-second (10^9 ns) interval.  The claim further says both are overridable
via environment variables, but `waitForBwServe` consults no environment
variable at all: it reads the fixed package variables, so with any
environment (e.g. BW_SERVE_WAIT_RETRIES set to 5) a never-ready server
still costs exactly 30 attempts. -/
theorem bwServeWait_defaults_and_fixed_budget :
    bwServeWaitRetries = 30 ∧ bwServeWaitInterval = 1000000000 ∧
    (waitForBwServe bwServeWaitRetries (fun _ => Attempt.netErr)).attemptsMade = 30 ∧
    (waitForBwServe bwServeWaitRetries (fun _ => Attempt.netErr)).result
      = Except.error timeoutMsg := by
  have h := waitLoop_all_fail (fun _ => Attempt.netErr) 30 0 (fun j _ => rfl)
  refine ⟨rfl, rfl, ?_, ?_⟩
  · simp only [waitForBwServe, bwServeWaitRetries, h]
  · simp only [waitForBwServe, bwServeWaitRetries, h]

/-- C3: in a run of the poller where no attempt succeeds, attempts ending
in a network error, a non-200 response, or an invalid JSON body all count
against the one shared attempt budget, and after exactly `max_attempts`
such attempts the poller fails with the timeout error. -/
theorem waitForBwServe_timeout_after_budget (n : Nat) (attempts : Nat → Attempt)
    (h : ∀ i, i < n → isErrorAttempt (attempts i) = true) :
    (waitForBwServe n attempts).result = Except.error timeoutMsg ∧
    (waitForBwServe n attempts).attemptsMade = n := by
  have hall := waitLoop_all_fail attempts n 0 (fun j hj => by
    rw [Nat.zero_add]
    exact errorAttempt_not_ready _ (h j hj))
  rw [waitForBwServe, hall]
  exact ⟨rfl, rfl⟩

theorem waitForBwServe_timeout_after_budget_witness :
    (waitForBwServe 2 (fun i => if i = 0 then Attempt.netErr else Attempt.badJson 200)).result
      = Except.error timeoutMsg ∧
    (waitForBwServe 2 (fun i => if i = 0 then Attempt.netErr else Attempt.badJson 200)).attemptsMade
      = 2 :=
  waitForBwServe_timeout_after_budget 2
    (fun i => if i = 0 then Attempt.netErr else Attempt.badJson 200)
    (by decide)

/-- C4: if the attempts before index k all fail and attempt k satisfies
the unlock predicate, the poller returns success on attempt k + 1 overall
(so immediately on the first satisfying attempt) having slept only k
times, not the full budget. -/
theorem waitForBwServe_immediate_success (n k : Nat) (attempts : Nat → Attempt)
    (hk : k < n)
    (hready : attemptReady (attempts k) = true)
    (hprev : ∀ j, j < k → attemptReady (attempts j) = false) :
    (waitForBwServe n attempts).result = Except.ok () ∧
    (waitForBwServe n attempts).attemptsMade = k + 1 ∧
    (waitForBwServe n attempts).sleeps = k := by
  have hfirst := waitLoop_first_success attempts k n 0 hk
    (by rw [Nat.zero_add]; exact hready)
    (fun j hj => by rw [Nat.zero_add]; exact hprev j hj)
  rw [waitForBwServe, hfirst]
  exact ⟨rfl, rfl, rfl⟩

theorem waitForBwServe_immediate_success_witness :
    (waitForBwServe 30 (fun _ => Attempt.ok 200 [("status", Json.str "unlocked")])).result
      = Except.ok () ∧
    (waitForBwServe 30 (fun _ => Attempt.ok 200 [("status", Json.str "unlocked")])).attemptsMade
      = 1 ∧
    (waitForBwServe 30 (fun _ => Attempt.ok 200 [("status", Json.str "unlocked")])).sleeps
      = 0 :=
  waitForBwServe_immediate_success 30 0
    (fun _ => Attempt.ok 200 [("status", Json.str "unlocked")])
    (by decide) (by decide)
    (fun j hj => absurd hj (Nat.not_lt_zero j))

/-! ## C5-C6: the authentication sequencer -/

/-- C5: `loginAndGetSession` fails with the ConfigurationError whenever
any of the three required secrets (client id, client secret, unlock
password) is absent from the environment, and spawns no external process
in that case. -/
theorem loginAndGetSession_missing_secret (env : Env) (run : List String → ExecResult)
    (h : osLookupEnv env "BW_CLIENTID" = none ∨ osLookupEnv env "BW_CLIENTSECRET" = none ∨
         osLookupEnv env "BW_PASSWORD" = none) :
    (loginAndGetSession env run).result = Except.error configErrorMsg ∧
    (loginAndGetSession env run).commandsRun = [] := by
  have hcond : osGetenv env "BW_CLIENTID" = "" ∨ osGetenv env "BW_CLIENTSECRET" = "" ∨
      osGetenv env "BW_PASSWORD" = "" := by
    rcases h with h | h | h
    · exact Or.inl (by rw [osGetenv, h]; rfl)
    · exact Or.inr (Or.inl (by rw [osGetenv, h]; rfl))
    · exact Or.inr (Or.inr (by rw [osGetenv, h]; rfl))
  simp only [loginAndGetSession]
  rw [if_pos hcond]
  exact ⟨rfl, rfl⟩

theorem loginAndGetSession_missing_secret_witness :
    (loginAndGetSession [] (fun _ => { output := "", err := none })).result
      = Except.error configErrorMsg ∧
    (loginAndGetSession [] (fun _ => { output := "", err := none })).commandsRun = [] :=
  loginAndGetSession_missing_secret [] (fun _ => { output := "", err := none })
    (Or.inl rfl)

/-- C6: when the secrets are present, the optional host-configuration step
and the login step exit zero, then a zero-exit unlock makes
`loginAndGetSession` return the trimmed raw unlock output as the
Credential, and a non-zero-exit unlock makes it fail with the
CommandError carrying the unlock output. -/
theorem loginAndGetSession_unlock_result (env : Env) (run : List String → ExecResult)
    (hid : osGetenv env "BW_CLIENTID" ≠ "")
    (hsecret : osGetenv env "BW_CLIENTSECRET" ≠ "")
    (hpw : osGetenv env "BW_PASSWORD" ≠ "")
    (hconfig : osGetenv env "BW_HOST" ≠ "" →
        (run (bwConfigCmd (osGetenv env "BW_HOST"))).err = none)
    (hlogin : (run bwLoginCmd).err = none) :
    ((run bwUnlockCmd).err = none →
        (loginAndGetSession env run).result = Except.ok (trimSpace (run bwUnlockCmd).output)) ∧
    (∀ e, (run bwUnlockCmd).err = some e →
        (loginAndGetSession env run).result =
          Except.error ("bw unlock failed: " ++ (run bwUnlockCmd).output ++ " - " ++ e)) := by
  have hnot : ¬ (osGetenv env "BW_CLIENTID" = "" ∨ osGetenv env "BW_CLIENTSECRET" = "" ∨
      osGetenv env "BW_PASSWORD" = "") := by
    rintro (h | h | h)
    · exact hid h
    · exact hsecret h
    · exact hpw h
  have hred : ∃ configRuns, loginAndGetSession env run = loginSteps run configRuns := by
    by_cases hh : osGetenv env "BW_HOST" = ""
    · refine ⟨[], ?_⟩
      simp only [loginAndGetSession]
      rw [if_neg hnot, if_pos hh]
    · refine ⟨[bwConfigCmd (osGetenv env "BW_HOST")], ?_⟩
      simp only [loginAndGetSession]
      rw [if_neg hnot, if_neg hh, hconfig hh]
  obtain ⟨configRuns, hred⟩ := hred
  rw [hred]
  constructor
  · intro hune
    simp only [loginSteps]
    rw [hlogin, hune]
  · intro e hune
    simp only [loginSteps]
    rw [hlogin, hune]

theorem loginAndGetSession_unlock_result_witness :
    (loginAndGetSession [("BW_CLIENTID", "a"), ("BW_CLIENTSECRET", "b"), ("BW_PASSWORD", "c")]
        (fun _ => { output := " tok ", err := none })).result = Except.ok "tok" :=
  (loginAndGetSession_unlock_result
    [("BW_CLIENTID", "a"), ("BW_CLIENTSECRET", "b"), ("BW_PASSWORD", "c")]
    (fun _ => { output := " tok ", err := none })
    (by decide) (by decide) (by decide)
    (fun h => absurd rfl h) rfl).1 rfl

/-! ## C7-C8: the /sync handler -/

/-- C7, counterexample to the claim as stated: with a sync command that
exits non-zero with combined output "boom", the handler responds 500 but
the body is not the captured combined output itself — it is the output
embedded in a diagnostic line. -/
theorem syncHandler_body_not_raw_output :
    (syncHandler (fun _ => { output := "boom", err := some "exit status 1" }) "POST").1.status
      = 500 ∧
    (syncHandler (fun _ => { output := "boom", err := some "exit status 1" }) "POST").1.body
      ≠ "boom" := by
  constructor
  · rfl
  · decide

/-- C7, as amended: for every POST to /sync, a zero-exit sync command gets
a 200 response with body exactly `Sync successful`, and a non-zero-exit
one gets a 500 response whose body embeds the captured combined output as
`Sync failed: <output>` followed by the newline `http.Error` appends. -/
theorem syncHandler_post_responses (run : List String → ExecResult) :
    ((run bwSyncCmd).err = none →
        syncHandler run "POST" = ({ status := 200, body := "Sync successful" }, [bwSyncCmd])) ∧
    (∀ e, (run bwSyncCmd).err = some e →
        syncHandler run "POST" =
          ({ status := 500, body := "Sync failed: " ++ (run bwSyncCmd).output ++ "\n" },
            [bwSyncCmd])) := by
  have hpost : ¬ ("POST" ≠ "POST") := fun hc => hc rfl
  constructor
  · intro h
    simp only [syncHandler]
    rw [if_neg hpost, h]
  · intro e h
    simp only [syncHandler]
    rw [if_neg hpost, h]

theorem syncHandler_post_responses_witness :
    syncHandler (fun _ => { output := "", err := none }) "POST"
      = ({ status := 200, body := "Sync successful" }, [bwSyncCmd]) :=
  (syncHandler_post_responses (fun _ => { output := "", err := none })).1 rfl

/-- C8: every request to /sync whose method is not POST gets a 405
response (with the `http.Error` body), no matter what the command runner
would do, and the sync command is not spawned. -/
theorem syncHandler_non_post (run : List String → ExecResult) (method : String)
    (h : method ≠ "POST") :
    syncHandler run method = ({ status := 405, body := "Method not allowed" ++ "\n" }, []) := by
  simp only [syncHandler]
  rw [if_pos h]

theorem syncHandler_non_post_witness :
    syncHandler (fun _ => { output := "boom", err := some "exit status 1" }) "GET"
      = ({ status := 405, body := "Method not allowed" ++ "\n" }, []) :=
  syncHandler_non_post (fun _ => { output := "boom", err := some "exit status 1" }) "GET"
    (by decide)

/-! ## C9: the periodic sync scheduler's interval -/

/-- C9: whatever string the sync-interval configuration holds, a parse
failure makes the scheduler fall back to the 2-minute default with a
warning — `startPeriodicSyncInterval` is total, so the process does not
terminate — and when the variable is unset the default string "2m"
parses to the same 2 minutes (without a warning). -/
theorem startPeriodicSync_interval_fallback (env : Env)
    (parseDuration : String → Option Int)
    (hgo : parseDuration "2m" = some twoMinutesNs) :
    (parseDuration (getEnv env "BW_SYNC_INTERVAL" "2m") = none →
        startPeriodicSyncInterval env parseDuration = (twoMinutesNs, true)) ∧
    (osLookupEnv env "BW_SYNC_INTERVAL" = none →
        startPeriodicSyncInterval env parseDuration = (twoMinutesNs, false)) := by
  constructor
  · intro h
    simp only [startPeriodicSyncInterval]
    rw [h]
  · intro h
    have hdef : getEnv env "BW_SYNC_INTERVAL" "2m" = "2m" := by
      simp [getEnv, h]
    simp only [startPeriodicSyncInterval]
    rw [hdef, hgo]

theorem startPeriodicSync_interval_fallback_witness :
    startPeriodicSyncInterval [("BW_SYNC_INTERVAL", "bogus")]
        (fun s => if s = "2m" then some twoMinutesNs else none) = (twoMinutesNs, true) :=
  (startPeriodicSync_interval_fallback [("BW_SYNC_INTERVAL", "bogus")]
    (fun s => if s = "2m" then some twoMinutesNs else none) (by decide)).1 (by decide)

/-! ## C10: set-but-empty configuration variables -/

theorem getEnv_of_unset_or_empty (env : Env) (key fallback : String)
    (h : osLookupEnv env key = none ∨ osLookupEnv env key = some "") :
    getEnv env key fallback = fallback := by
  rcases h with h | h <;> simp [getEnv, h]

/-- C10: every configuration key read through `getEnv` — in particular
the internal serve port, the proxy port, the proxy host, the sync-disable
flag and the sync interval — treats a variable that is set but empty
exactly like an unset one: the fallback default is returned. -/
theorem getEnv_empty_treated_as_unset (env : Env) (key fallback : String)
    (h : osLookupEnv env key = none ∨ osLookupEnv env key = some "") :
    getEnv env key fallback = fallback ∧
    (osLookupEnv env "BW_SERVE_PORT" = some "" → bwServePort env = "8088") ∧
    (osLookupEnv env "BW_PROXY_PORT" = some "" → bwProxyPort env = "8087") ∧
    (osLookupEnv env "BW_PROXY_HOST" = some "" → bwProxyHost env = "localhost") ∧
    (osLookupEnv env "BW_DISABLE_SYNC" = some "" → bwDisableSync env = "false") ∧
    (osLookupEnv env "BW_SYNC_INTERVAL" = some "" → bwSyncIntervalStr env = "2m") := by
  refine ⟨getEnv_of_unset_or_empty env key fallback h, fun h2 => ?_, fun h2 => ?_,
    fun h2 => ?_, fun h2 => ?_, fun h2 => ?_⟩
  · exact getEnv_of_unset_or_empty env "BW_SERVE_PORT" "8088" (Or.inr h2)
  · exact getEnv_of_unset_or_empty env "BW_PROXY_PORT" "8087" (Or.inr h2)
  · exact getEnv_of_unset_or_empty env "BW_PROXY_HOST" "localhost" (Or.inr h2)
  · exact getEnv_of_unset_or_empty env "BW_DISABLE_SYNC" "false" (Or.inr h2)
  · exact getEnv_of_unset_or_empty env "BW_SYNC_INTERVAL" "2m" (Or.inr h2)

theorem getEnv_empty_treated_as_unset_witness :
    getEnv [("BW_SERVE_PORT", "")] "BW_SERVE_PORT" "8088" = "8088" ∧
    bwServePort [("BW_SERVE_PORT", "")] = "8088" := by
  have h := getEnv_empty_treated_as_unset [("BW_SERVE_PORT", "")] "BW_SERVE_PORT" "8088"
    (Or.inr (by decide))
  exact ⟨h.1, h.2.1 (by decide)⟩
